import Mathlib

/-!
Shallow embedding of the power-management coordinator in
`power-libperfmgr/aidl/Power.cpp` (the Pixel/Lineage PowerHAL service).

The service owns two global flags (`mSustainedPerfModeOn`, `mBatterySaverOn`)
and talks to an external hint backend (libperfmgr's `HintManager`), a
device-specific override hook, and an interaction handler.  We model the
backend's active-hint set as part of the state and record every outgoing call
(hint activation/deactivation and interaction-handler signal) in an explicit
trace, so that "no backend call is issued" becomes an equation on the trace.

The session-registry notification (`PowerSessionManager::updateHintMode`) is
an external collaborator side effect that no claim below concerns; it is not
recorded in the trace.
-/

namespace PowerHal

/-- Modelled from the spec: the `Mode` enumeration of the AIDL power
interface (defined outside this repository), listed in its stable integral
rank order.  The rank is used only by the version-gated capability checks. -/
inductive Mode where
  | DOUBLE_TAP_TO_WAKE
  | LOW_POWER
  | SUSTAINED_PERFORMANCE
  | FIXED_PERFORMANCE
  | VR
  | LAUNCH
  | EXPENSIVE_RENDERING
  | INTERACTIVE
  | DEVICE_IDLE
  | DISPLAY_INACTIVE
  | AUDIO_STREAMING_LOW_LATENCY
  | CAMERA_STREAMING_SECURE
  | CAMERA_STREAMING_LOW
  | CAMERA_STREAMING_MID
  | CAMERA_STREAMING_HIGH
  | GAME
  | GAME_LOADING
  | DISPLAY_CHANGE
  | AUTOMOTIVE_PROJECTION
  deriving DecidableEq

/-- Modelled from the spec: the `Boost` enumeration of the AIDL power
interface (defined outside this repository), in rank order. -/
inductive Boost where
  | INTERACTION
  | DISPLAY_UPDATE_IMMINENT
  | ML_ACC
  | AUDIO_LAUNCH
  | CAMERA_LAUNCH
  | CAMERA_SHOT
  deriving DecidableEq

/-- The integral rank of a mode: `static_cast<int32_t>(type)` in the C++. -/
def modeRank : Mode → Int
  | .DOUBLE_TAP_TO_WAKE => 0
  | .LOW_POWER => 1
  | .SUSTAINED_PERFORMANCE => 2
  | .FIXED_PERFORMANCE => 3
  | .VR => 4
  | .LAUNCH => 5
  | .EXPENSIVE_RENDERING => 6
  | .INTERACTIVE => 7
  | .DEVICE_IDLE => 8
  | .DISPLAY_INACTIVE => 9
  | .AUDIO_STREAMING_LOW_LATENCY => 10
  | .CAMERA_STREAMING_SECURE => 11
  | .CAMERA_STREAMING_LOW => 12
  | .CAMERA_STREAMING_MID => 13
  | .CAMERA_STREAMING_HIGH => 14
  | .GAME => 15
  | .GAME_LOADING => 16
  | .DISPLAY_CHANGE => 17
  | .AUTOMOTIVE_PROJECTION => 18

/-- The integral rank of a boost: `static_cast<int32_t>(type)` in the C++. -/
def boostRank : Boost → Int
  | .INTERACTION => 0
  | .DISPLAY_UPDATE_IMMINENT => 1
  | .ML_ACC => 2
  | .AUDIO_LAUNCH => 3
  | .CAMERA_LAUNCH => 4
  | .CAMERA_SHOT => 5

/-- The display name of a mode: `toString(type)` in the C++ (the
AIDL-generated `toString` returns the enumerator's name). -/
def modeName : Mode → String
  | .DOUBLE_TAP_TO_WAKE => "DOUBLE_TAP_TO_WAKE"
  | .LOW_POWER => "LOW_POWER"
  | .SUSTAINED_PERFORMANCE => "SUSTAINED_PERFORMANCE"
  | .FIXED_PERFORMANCE => "FIXED_PERFORMANCE"
  | .VR => "VR"
  | .LAUNCH => "LAUNCH"
  | .EXPENSIVE_RENDERING => "EXPENSIVE_RENDERING"
  | .INTERACTIVE => "INTERACTIVE"
  | .DEVICE_IDLE => "DEVICE_IDLE"
  | .DISPLAY_INACTIVE => "DISPLAY_INACTIVE"
  | .AUDIO_STREAMING_LOW_LATENCY => "AUDIO_STREAMING_LOW_LATENCY"
  | .CAMERA_STREAMING_SECURE => "CAMERA_STREAMING_SECURE"
  | .CAMERA_STREAMING_LOW => "CAMERA_STREAMING_LOW"
  | .CAMERA_STREAMING_MID => "CAMERA_STREAMING_MID"
  | .CAMERA_STREAMING_HIGH => "CAMERA_STREAMING_HIGH"
  | .GAME => "GAME"
  | .GAME_LOADING => "GAME_LOADING"
  | .DISPLAY_CHANGE => "DISPLAY_CHANGE"
  | .AUTOMOTIVE_PROJECTION => "AUTOMOTIVE_PROJECTION"

/-- The display name of a boost: `toString(type)` in the C++. -/
def boostName : Boost → String
  | .INTERACTION => "INTERACTION"
  | .DISPLAY_UPDATE_IMMINENT => "DISPLAY_UPDATE_IMMINENT"
  | .ML_ACC => "ML_ACC"
  | .AUDIO_LAUNCH => "AUDIO_LAUNCH"
  | .CAMERA_LAUNCH => "CAMERA_LAUNCH"
  | .CAMERA_SHOT => "CAMERA_SHOT"

/-- `kAlwaysAllowedModes` from Power.cpp: modes exempt from suppression by
the global flags. -/
def kAlwaysAllowedModes : List Mode :=
  [Mode.DOUBLE_TAP_TO_WAKE, Mode.DEVICE_IDLE, Mode.DISPLAY_INACTIVE]

/-- An outgoing call recorded by the model: a hint activation (optionally
with a millisecond auto-expiry), a hint deactivation, or the interaction
handler's `Acquire` signal. -/
inductive PowerCall where
  | doHint : String → PowerCall
  | doHintTimed : String → Int → PowerCall
  | endHint : String → PowerCall
  | acquireInteraction : Int → PowerCall
  deriving DecidableEq

/-- Whether a recorded call is a backend hint call (as opposed to the
interaction-handler signal). -/
def PowerCall.isHintCall : PowerCall → Bool
  | .doHint _ => true
  | .doHintTimed _ _ => true
  | .endHint _ => true
  | .acquireInteraction _ => false

/-- Status of an AIDL call: `ndk::ScopedAStatus` restricted to the outcomes
this service produces. -/
inductive PowerStatus where
  | ok
  | unsupportedOperation
  | illegalArgument
  deriving DecidableEq

/-- The mutable state of the `Power` service together with the backend's
active-hint set.  `mSustainedPerfModeOn` and `mBatterySaverOn` are the two
member flags of `Power`; `activeHints` is the HintBackend's set of currently
applied named hints (modelled from the spec: the backend exposes
`listActive() -> set<name>`, which `HintManager::GetHints()` realises). -/
structure PowerState where
  mSustainedPerfModeOn : Bool
  mBatterySaverOn : Bool
  activeHints : List String
  deriving DecidableEq

/-- Result of a dispatch call: the new state, the calls issued to external
collaborators in order, and the returned status. -/
structure CallResult where
  st : PowerState
  calls : List PowerCall
  status : PowerStatus
  deriving DecidableEq

/-- Modelled from the spec: the HintBackend's `activate(name)` primitive
(`HintManager::DoHint`), acting on the active-hint set. -/
def doHintSt (s : PowerState) (name : String) : PowerState :=
  { s with activeHints :=
      if s.activeHints.contains name then s.activeHints else name :: s.activeHints }

/-- Modelled from the spec: the HintBackend's `deactivate(name)` primitive
(`HintManager::EndHint`), acting on the active-hint set. -/
def endHintSt (s : PowerState) (name : String) : PowerState :=
  { s with activeHints := s.activeHints.filter (fun h => h ≠ name) }

/-- Whether a hint name matches one of the always-allowed modes: the
`std::any_of` test inside `endAllHints`. -/
def isAlwaysAllowedHint (hint : String) : Bool :=
  kAlwaysAllowedModes.any (fun mode => hint == modeName mode)

/-- The loop body of `endAllHints`: iterate over a snapshot of the backend's
hint list, ending every hint that does not match an always-allowed mode. -/
def endAllHintsLoop (s : PowerState) : List String → PowerState × List PowerCall
  | [] => (s, [])
  | h :: rest =>
      if isAlwaysAllowedHint h then
        endAllHintsLoop s rest
      else
        let r := endAllHintsLoop (endHintSt s h) rest
        (r.1, PowerCall.endHint h :: r.2)

/-- `endAllHints` from Power.cpp: end every hint reported by the backend
except those matching `kAlwaysAllowedModes`. -/
def endAllHints (s : PowerState) : PowerState × List PowerCall :=
  endAllHintsLoop s s.activeHints

/-- `Power::setMode` from Power.cpp.  `dev` is the device-specific override
hook `setDeviceSpecificMode`; when it returns true the request is handled
and generic dispatch is skipped.  The session-registry notification that
precedes the override check touches no modelled state. -/
def setMode (dev : Mode → Bool → Bool) (type : Mode) (enabled : Bool)
    (s : PowerState) : CallResult :=
  if dev type enabled then ⟨s, [], .ok⟩
  else
    match type with
    | Mode.SUSTAINED_PERFORMANCE =>
        if enabled then
          ⟨{ doHintSt (endAllHints s).1 "SUSTAINED_PERFORMANCE" with
              mSustainedPerfModeOn := enabled },
            (endAllHints s).2 ++ [PowerCall.doHint "SUSTAINED_PERFORMANCE"], .ok⟩
        else
          ⟨{ endHintSt s "SUSTAINED_PERFORMANCE" with mSustainedPerfModeOn := enabled },
            [PowerCall.endHint "SUSTAINED_PERFORMANCE"], .ok⟩
    | Mode.LOW_POWER =>
        if enabled then
          ⟨{ doHintSt (endAllHints s).1 "LOW_POWER" with mBatterySaverOn := enabled },
            (endAllHints s).2 ++ [PowerCall.doHint "LOW_POWER"], .ok⟩
        else
          ⟨{ endHintSt s "LOW_POWER" with mBatterySaverOn := enabled },
            [PowerCall.endHint "LOW_POWER"], .ok⟩
    | _ =>
        if (s.mBatterySaverOn || s.mSustainedPerfModeOn)
            && !(kAlwaysAllowedModes.contains type) then
          ⟨s, [], .ok⟩
        else if enabled then
          ⟨doHintSt s (modeName type), [PowerCall.doHint (modeName type)], .ok⟩
        else
          ⟨endHintSt s (modeName type), [PowerCall.endHint (modeName type)], .ok⟩

/-- `Power::setBoost` from Power.cpp.  The INTERACTION case forwards the
duration to the interaction handler; all other boosts map onto named hints
with the duration-sign convention. -/
def setBoost (type : Boost) (durationMs : Int) (s : PowerState) : CallResult :=
  match type with
  | Boost.INTERACTION =>
      if s.mSustainedPerfModeOn || s.mBatterySaverOn then ⟨s, [], .ok⟩
      else ⟨s, [PowerCall.acquireInteraction durationMs], .ok⟩
  | _ =>
      if s.mSustainedPerfModeOn || s.mBatterySaverOn then ⟨s, [], .ok⟩
      else if durationMs > 0 then
        ⟨doHintSt s (boostName type), [PowerCall.doHintTimed (boostName type) durationMs], .ok⟩
      else if durationMs = 0 then
        ⟨doHintSt s (boostName type), [PowerCall.doHint (boostName type)], .ok⟩
      else
        ⟨endHintSt s (boostName type), [PowerCall.endHint (boostName type)], .ok⟩

/-- The version-gate cascade of `Power::isModeSupported` (the stacked
switch on `mServiceVersion` with fallthrough): true when the mode passes the
gate for the given negotiated version. -/
def modeVersionGate (v : Int) (type : Mode) : Bool :=
  if v = 5 then
    decide (modeRank type ≤ modeRank Mode.AUTOMOTIVE_PROJECTION)
      || decide (modeRank type ≤ modeRank Mode.GAME_LOADING)
      || decide (modeRank type ≤ modeRank Mode.CAMERA_STREAMING_HIGH)
  else if v = 4 ∨ v = 3 then
    decide (modeRank type ≤ modeRank Mode.GAME_LOADING)
      || decide (modeRank type ≤ modeRank Mode.CAMERA_STREAMING_HIGH)
  else if v = 2 ∨ v = 1 then
    decide (modeRank type ≤ modeRank Mode.CAMERA_STREAMING_HIGH)
  else false

/-- The version-gate cascade of `Power::isBoostSupported`: versions 1
through 5 all fall through to the single CAMERA_SHOT rank check. -/
def boostVersionGate (v : Int) (type : Boost) : Bool :=
  if v = 5 ∨ v = 4 ∨ v = 3 ∨ v = 2 ∨ v = 1 then
    decide (boostRank type ≤ boostRank Boost.CAMERA_SHOT)
  else false

/-- `Power::isModeSupported` from Power.cpp.  `devSupp` is
`isDeviceSpecificModeSupported` (some answer when the hook claims the
query); `hintSupp` is `HintManager::IsHintSupported` and `adpfProfileSupp`
is `HintManager::IsAdpfProfileSupported`, both keyed by display name. -/
def isModeSupported (v : Int) (devSupp : Mode → Option Bool)
    (hintSupp adpfProfileSupp : String → Bool) (type : Mode) : Bool :=
  match devSupp type with
  | some ret => ret
  | none =>
      if modeVersionGate v type then
        let supported := (type == Mode.LOW_POWER) || hintSupp (modeName type)
        if !supported && adpfProfileSupp (modeName type) then true else supported
      else false

/-- `Power::isBoostSupported` from Power.cpp. -/
def isBoostSupported (v : Int) (hintSupp adpfProfileSupp : String → Bool)
    (type : Boost) : Bool :=
  if boostVersionGate v type then
    let supported := hintSupp (boostName type)
    if !supported && adpfProfileSupp (boostName type) then true else supported
  else false

/-- `Power::getHintSessionPreferredRate` from Power.cpp.  `adpfSupported`
is `HintManager::IsAdpfSupported`; `reportingRateLimitNs` is the profile's
`mReportingRateLimitNs`.  Returns the status and the written-out
nanosecond value. -/
def getHintSessionPreferredRate (adpfSupported : Bool)
    (reportingRateLimitNs : Int) : PowerStatus × Int :=
  let outNanoseconds := if adpfSupported then reportingRateLimitNs else 0
  if outNanoseconds ≤ 0 then (.unsupportedOperation, outNanoseconds)
  else (.ok, outNanoseconds)

/-- Closed form of the `endAllHints` loop over an arbitrary snapshot list:
hints named in the snapshot and not always-allowed are removed from the
active set, and one `endHint` call is issued per non-allowed snapshot
entry, in order. -/
lemma endAllHintsLoop_eq (l : List String) (s : PowerState) :
    endAllHintsLoop s l =
      ({ s with activeHints :=
          s.activeHints.filter (fun x => isAlwaysAllowedHint x || !(l.contains x)) },
        (l.filter (fun h => !isAlwaysAllowedHint h)).map PowerCall.endHint) := by
  induction l generalizing s with
  | nil => simp [endAllHintsLoop]
  | cons h rest ih =>
      by_cases hall : isAlwaysAllowedHint h
      · rw [endAllHintsLoop, if_pos hall, ih]
        refine Prod.ext ?_ ?_
        · show ({ s with activeHints := _ } : PowerState) = { s with activeHints := _ }
          congr 1
          refine List.filter_congr (fun x _ => ?_)
          by_cases hx : x = h
          · subst hx; simp [hall]
          · simp [List.contains_cons, hx]
        · simp [List.filter_cons, hall]
      · rw [endAllHintsLoop, if_neg hall]
        simp only [ih, endHintSt]
        refine Prod.ext ?_ ?_
        · show ({ s with activeHints := _ } : PowerState) = { s with activeHints := _ }
          congr 1
          rw [List.filter_filter]
          refine List.filter_congr (fun x _ => ?_)
          by_cases hx : x = h
          · subst hx
            simp [hall, List.contains_cons]
          · simp [List.contains_cons, hx]
        · simp [List.filter_cons, hall]

/-- Closed form of `endAllHints`: the active set is reduced to its
always-allowed members, and one `endHint` call is issued per non-allowed
active hint. -/
lemma endAllHints_eq (s : PowerState) :
    endAllHints s =
      ({ s with activeHints := s.activeHints.filter isAlwaysAllowedHint },
        (s.activeHints.filter (fun h => !isAlwaysAllowedHint h)).map PowerCall.endHint) := by
  rw [endAllHints, endAllHintsLoop_eq]
  refine Prod.ext ?_ rfl
  show ({ s with activeHints := _ } : PowerState) = { s with activeHints := _ }
  congr 1
  refine List.filter_congr (fun x hx => ?_)
  simp [List.contains, hx]

/-- Filtering never leaves behind an element the predicate rejects. -/
lemma contains_filter_of_false (l : List String) {p : String → Bool} {a : String}
    (hp : p a = false) : (l.filter p).contains a = false := by
  rw [Bool.eq_false_iff]
  intro hc
  have hmem : a ∈ l.filter p := by simpa [List.contains] using hc
  have hpa := List.of_mem_filter hmem
  rw [hp] at hpa
  exact Bool.false_ne_true hpa

/-- A trivial device override hook that never handles any request; used to
instantiate theorems at concrete inputs. -/
def devNone : Mode → Bool → Bool := fun _ _ => false

/-- C1: for a mode other than SUSTAINED_PERFORMANCE and LOW_POWER, with the
device override reporting the request unhandled, setMode issues no backend
hint call when a global flag is set and the mode is not always-allowed, and
otherwise activates (enabled) or deactivates (disabled) the hint named after
the mode. -/
theorem setMode_generic_dispatch (dev : Mode → Bool → Bool) (s : PowerState)
    (m : Mode) (e : Bool)
    (hsp : m ≠ Mode.SUSTAINED_PERFORMANCE) (hlp : m ≠ Mode.LOW_POWER)
    (hdev : dev m e = false) :
    setMode dev m e s =
      if (s.mBatterySaverOn || s.mSustainedPerfModeOn)
          && !(kAlwaysAllowedModes.contains m) then
        ⟨s, [], .ok⟩
      else if e then
        ⟨doHintSt s (modeName m), [PowerCall.doHint (modeName m)], .ok⟩
      else
        ⟨endHintSt s (modeName m), [PowerCall.endHint (modeName m)], .ok⟩ := by
  cases m <;> simp_all [setMode]

/-- Witness for C1: with no overrides and a clean state, enabling LAUNCH
activates the hint named LAUNCH. -/
theorem setMode_generic_dispatch_witness :
    setMode devNone Mode.LAUNCH true ⟨false, false, []⟩ =
      ⟨⟨false, false, ["LAUNCH"]⟩, [PowerCall.doHint "LAUNCH"], .ok⟩ := by
  rw [setMode_generic_dispatch devNone ⟨false, false, []⟩ Mode.LAUNCH true
    (by decide) (by decide) rfl]
  rfl

/-- C2: with the device override reporting the requests unhandled, enabling
SUSTAINED_PERFORMANCE first ends every active hint not named after an
always-allowed mode, then activates "SUSTAINED_PERFORMANCE" and sets the
sustained flag; disabling it ends "SUSTAINED_PERFORMANCE" and clears the
flag; LOW_POWER behaves the same with "LOW_POWER" and the battery-saver
flag.  All four equations hold for arbitrary initial flag values, so the
global-flag suppression gate is never consulted. -/
theorem setMode_global_modes (dev : Mode → Bool → Bool) (s : PowerState)
    (hdevST : dev Mode.SUSTAINED_PERFORMANCE true = false)
    (hdevSF : dev Mode.SUSTAINED_PERFORMANCE false = false)
    (hdevLT : dev Mode.LOW_POWER true = false)
    (hdevLF : dev Mode.LOW_POWER false = false) :
    setMode dev Mode.SUSTAINED_PERFORMANCE true s =
      ⟨⟨true, s.mBatterySaverOn,
          "SUSTAINED_PERFORMANCE" :: s.activeHints.filter isAlwaysAllowedHint⟩,
        (s.activeHints.filter (fun h => !isAlwaysAllowedHint h)).map PowerCall.endHint
          ++ [PowerCall.doHint "SUSTAINED_PERFORMANCE"], .ok⟩
    ∧ setMode dev Mode.SUSTAINED_PERFORMANCE false s =
      ⟨⟨false, s.mBatterySaverOn,
          s.activeHints.filter (fun h => h ≠ "SUSTAINED_PERFORMANCE")⟩,
        [PowerCall.endHint "SUSTAINED_PERFORMANCE"], .ok⟩
    ∧ setMode dev Mode.LOW_POWER true s =
      ⟨⟨s.mSustainedPerfModeOn, true,
          "LOW_POWER" :: s.activeHints.filter isAlwaysAllowedHint⟩,
        (s.activeHints.filter (fun h => !isAlwaysAllowedHint h)).map PowerCall.endHint
          ++ [PowerCall.doHint "LOW_POWER"], .ok⟩
    ∧ setMode dev Mode.LOW_POWER false s =
      ⟨⟨s.mSustainedPerfModeOn, false,
          s.activeHints.filter (fun h => h ≠ "LOW_POWER")⟩,
        [PowerCall.endHint "LOW_POWER"], .ok⟩ := by
  refine ⟨?_, ?_, ?_, ?_⟩
  · simp only [setMode, hdevST, endAllHints_eq, doHintSt,
      contains_filter_of_false s.activeHints
        (by decide : isAlwaysAllowedHint "SUSTAINED_PERFORMANCE" = false)]
    simp
  · simp [setMode, hdevSF, endHintSt]
  · simp only [setMode, hdevLT, endAllHints_eq, doHintSt,
      contains_filter_of_false s.activeHints
        (by decide : isAlwaysAllowedHint "LOW_POWER" = false)]
    simp
  · simp [setMode, hdevLF, endHintSt]

/-- Witness for C2: from a state with an active EXPENSIVE_RENDERING hint
and an active DEVICE_IDLE hint, enabling SUSTAINED_PERFORMANCE ends the
former, keeps the latter, activates the sustained hint and sets the flag. -/
theorem setMode_global_modes_witness :
    setMode devNone Mode.SUSTAINED_PERFORMANCE true
        ⟨false, false, ["EXPENSIVE_RENDERING", "DEVICE_IDLE"]⟩ =
      ⟨⟨true, false, ["SUSTAINED_PERFORMANCE", "DEVICE_IDLE"]⟩,
        [PowerCall.endHint "EXPENSIVE_RENDERING",
          PowerCall.doHint "SUSTAINED_PERFORMANCE"], .ok⟩ := by
  rw [(setMode_global_modes devNone
    ⟨false, false, ["EXPENSIVE_RENDERING", "DEVICE_IDLE"]⟩ rfl rfl rfl rfl).1]
  rfl

/-- A device supportedness hook that claims every query and answers true. -/
def devAlwaysYes : Mode → Option Bool := fun _ => some true

/-- A device supportedness hook that claims no query. -/
def devSuppNone : Mode → Option Bool := fun _ => none

/-- A backend that recognizes no hint name. -/
def noHints : String → Bool := fun _ => false

/-- A backend that recognizes every hint name. -/
def allHints : String → Bool := fun _ => true

/-- The mode version-gate cascade rejects a mode whenever its rank is above
the negotiated version's cutoff, or the version is outside 1..5. -/
lemma modeVersionGate_false {v : Int} {m : Mode}
    (h : (v = 1 ∨ v = 2) ∧ modeRank Mode.CAMERA_STREAMING_HIGH < modeRank m
      ∨ (v = 3 ∨ v = 4) ∧ modeRank Mode.GAME_LOADING < modeRank m
      ∨ v = 5 ∧ modeRank Mode.AUTOMOTIVE_PROJECTION < modeRank m
      ∨ ¬(1 ≤ v ∧ v ≤ 5)) :
    modeVersionGate v m = false := by
  have hCSH : modeRank Mode.CAMERA_STREAMING_HIGH = 14 := rfl
  have hGL : modeRank Mode.GAME_LOADING = 16 := rfl
  have hAP : modeRank Mode.AUTOMOTIVE_PROJECTION = 18 := rfl
  unfold modeVersionGate
  split_ifs with h1 h2 h3
  · simp only [Bool.or_eq_false_iff, decide_eq_false_iff_not]
    omega
  · simp only [Bool.or_eq_false_iff, decide_eq_false_iff_not]
    omega
  · simp only [decide_eq_false_iff_not]
    omega
  · rfl

/-- The boost version-gate cascade rejects a boost whenever its rank is
above CAMERA_SHOT, or the version is outside 1..5. -/
lemma boostVersionGate_false {v : Int} {b : Boost}
    (h : 1 ≤ v ∧ v ≤ 5 ∧ boostRank Boost.CAMERA_SHOT < boostRank b
      ∨ ¬(1 ≤ v ∧ v ≤ 5)) :
    boostVersionGate v b = false := by
  have hCS : boostRank Boost.CAMERA_SHOT = 5 := rfl
  unfold boostVersionGate
  split_ifs with h1
  · simp only [decide_eq_false_iff_not]
    omega
  · rfl

/-- C3 counterexample: at negotiated version 1 the mode GAME_LOADING is
above the version-1 cutoff CAMERA_STREAMING_HIGH, yet when the device
override hook claims the supportedness answer, isModeSupported returns
true, not false: the override is consulted before the version gate. -/
theorem isModeSupported_gate_counterexample :
    isModeSupported 1 devAlwaysYes noHints noHints Mode.GAME_LOADING = true := rfl

/-- C3 (amended): provided the device override hook does not claim the
supportedness answer, a mode above its version cutoff (CAMERA_STREAMING_HIGH
for versions 1-2, GAME_LOADING for 3-4, AUTOMOTIVE_PROJECTION for 5, and
nothing admitted outside 1..5) is reported unsupported for every backend,
i.e. without querying the backend; likewise every boost above CAMERA_SHOT at
versions 1..5, and every boost outside versions 1..5, is reported
unsupported for every backend (no override exists on the boost path). -/
theorem version_gate_unsupported :
    (∀ (v : Int) (devSupp : Mode → Option Bool) (m : Mode),
      devSupp m = none →
      ((v = 1 ∨ v = 2) ∧ modeRank Mode.CAMERA_STREAMING_HIGH < modeRank m
        ∨ (v = 3 ∨ v = 4) ∧ modeRank Mode.GAME_LOADING < modeRank m
        ∨ v = 5 ∧ modeRank Mode.AUTOMOTIVE_PROJECTION < modeRank m
        ∨ ¬(1 ≤ v ∧ v ≤ 5)) →
      ∀ hintSupp adpfProfileSupp : String → Bool,
        isModeSupported v devSupp hintSupp adpfProfileSupp m = false)
    ∧ (∀ (v : Int) (b : Boost),
      (1 ≤ v ∧ v ≤ 5 ∧ boostRank Boost.CAMERA_SHOT < boostRank b
        ∨ ¬(1 ≤ v ∧ v ≤ 5)) →
      ∀ hintSupp adpfProfileSupp : String → Bool,
        isBoostSupported v hintSupp adpfProfileSupp b = false) := by
  constructor
  · intro v devSupp m hdev hgate hintSupp adpfProfileSupp
    simp [isModeSupported, hdev, modeVersionGate_false hgate]
  · intro v b hgate hintSupp adpfProfileSupp
    simp [isBoostSupported, boostVersionGate_false hgate]

/-- Witness for C3 (amended): GAME_LOADING is unsupported at version 1 with
an unclaiming override, and CAMERA_SHOT is unsupported at version 0. -/
theorem version_gate_unsupported_witness :
    isModeSupported 1 devSuppNone noHints noHints Mode.GAME_LOADING = false
    ∧ isBoostSupported 0 noHints noHints Boost.CAMERA_SHOT = false :=
  ⟨version_gate_unsupported.1 1 devSuppNone Mode.GAME_LOADING rfl
      (by decide) noHints noHints,
    version_gate_unsupported.2 0 Boost.CAMERA_SHOT (by decide) noHints noHints⟩

/-- C4 counterexample: with both global flags clear, setBoost(INTERACTION,
200) does not activate the named hint "INTERACTION" with a timed expiry as
the claim requires for every boost; it only signals the interaction handler
and leaves the active-hint set unchanged. -/
theorem setBoost_interaction_counterexample :
    setBoost Boost.INTERACTION 200 ⟨false, false, []⟩ =
      ⟨⟨false, false, []⟩, [PowerCall.acquireInteraction 200], .ok⟩ := rfl

/-- C4 (amended): for every boost type other than INTERACTION, when neither
global flag is set, setBoost activates the boost's named hint with a timed
auto-expiry for a positive duration, activates it without expiry for a zero
duration, and deactivates it for a negative duration. -/
theorem setBoost_duration_rules (b : Boost) (d : Int) (s : PowerState)
    (hb : b ≠ Boost.INTERACTION)
    (hflags : (s.mSustainedPerfModeOn || s.mBatterySaverOn) = false) :
    setBoost b d s =
      if d > 0 then
        ⟨doHintSt s (boostName b), [PowerCall.doHintTimed (boostName b) d], .ok⟩
      else if d = 0 then
        ⟨doHintSt s (boostName b), [PowerCall.doHint (boostName b)], .ok⟩
      else
        ⟨endHintSt s (boostName b), [PowerCall.endHint (boostName b)], .ok⟩ := by
  cases b <;> simp_all [setBoost]

/-- Witness for C4 (amended): setBoost(ML_ACC, 200) from a clean state
activates "ML_ACC" with a 200 ms auto-expiry. -/
theorem setBoost_duration_rules_witness :
    setBoost Boost.ML_ACC 200 ⟨false, false, []⟩ =
      ⟨⟨false, false, ["ML_ACC"]⟩, [PowerCall.doHintTimed "ML_ACC" 200], .ok⟩ := by
  rw [setBoost_duration_rules Boost.ML_ACC 200 ⟨false, false, []⟩ (by decide) rfl]
  rfl

/-- C5: when either global flag is set, setBoost issues no backend hint
call and no interaction-handler signal for any boost and any duration, and
still returns success (the state is also unchanged). -/
theorem setBoost_suppressed (b : Boost) (d : Int) (s : PowerState)
    (hflags : (s.mSustainedPerfModeOn || s.mBatterySaverOn) = true) :
    setBoost b d s = ⟨s, [], .ok⟩ := by
  cases b <;> simp [setBoost, hflags]

/-- Witness for C5: setBoost(INTERACTION, 50) while the battery-saver flag
is set produces no calls and returns success. -/
theorem setBoost_suppressed_witness :
    setBoost Boost.INTERACTION 50 ⟨false, true, []⟩ =
      ⟨⟨false, true, []⟩, [], .ok⟩ :=
  setBoost_suppressed Boost.INTERACTION 50 ⟨false, true, []⟩ rfl

/-- C6: past the version gate and with the override hook not claiming the
answer, LOW_POWER is always reported supported, any other mode is supported
if and only if the backend recognizes its named hint or reports a matching
session-profile capability, and boosts use the same hint-or-profile
disjunction with no LOW_POWER-style exception. -/
theorem backend_supportedness :
    (∀ (v : Int) (devSupp : Mode → Option Bool)
        (hintSupp adpfProfileSupp : String → Bool) (m : Mode),
      devSupp m = none → modeVersionGate v m = true →
      ((m = Mode.LOW_POWER →
          isModeSupported v devSupp hintSupp adpfProfileSupp m = true)
        ∧ (m ≠ Mode.LOW_POWER →
          (isModeSupported v devSupp hintSupp adpfProfileSupp m = true ↔
            hintSupp (modeName m) = true ∨ adpfProfileSupp (modeName m) = true))))
    ∧ (∀ (v : Int) (hintSupp adpfProfileSupp : String → Bool) (b : Boost),
      boostVersionGate v b = true →
      (isBoostSupported v hintSupp adpfProfileSupp b = true ↔
        hintSupp (boostName b) = true ∨ adpfProfileSupp (boostName b) = true)) := by
  constructor
  · intro v devSupp hintSupp adpfProfileSupp m hdev hgate
    constructor
    · rintro rfl
      simp [isModeSupported, hdev, hgate]
    · intro hne
      have hbeq : (m == Mode.LOW_POWER) = false := by
        simpa using hne
      simp only [isModeSupported, hdev, hgate, if_true, hbeq, Bool.false_or]
      cases hh : hintSupp (modeName m) <;>
        cases ha : adpfProfileSupp (modeName m) <;> simp
  · intro v hintSupp adpfProfileSupp b hgate
    simp only [isBoostSupported, hgate, if_true]
    cases hh : hintSupp (boostName b) <;>
      cases ha : adpfProfileSupp (boostName b) <;> simp

/-- Witness for C6: at version 1, LOW_POWER is supported with an empty
backend, and ML_ACC is supported when the backend recognizes every hint. -/
theorem backend_supportedness_witness :
    isModeSupported 1 devSuppNone noHints noHints Mode.LOW_POWER = true
    ∧ isBoostSupported 1 allHints noHints Boost.ML_ACC = true :=
  ⟨(backend_supportedness.1 1 devSuppNone noHints noHints Mode.LOW_POWER
      rfl rfl).1 rfl,
    (backend_supportedness.2 1 allHints noHints Boost.ML_ACC rfl).mpr
      (Or.inl rfl)⟩

/-- C7: the preferred-rate query returns UnsupportedOperation exactly when
the backend reports no positive reporting-rate limit (with the rate taken as
0 when session support is absent), and otherwise returns success with the
backend's positive nanosecond interval. -/
theorem getHintSessionPreferredRate_spec (adpf : Bool) (limit : Int) :
    ((getHintSessionPreferredRate adpf limit).1 = PowerStatus.unsupportedOperation
      ↔ (adpf = false ∨ limit ≤ 0))
    ∧ (adpf = true ∧ 0 < limit →
        getHintSessionPreferredRate adpf limit = (PowerStatus.ok, limit)) := by
  constructor
  · cases adpf <;> by_cases hl : limit ≤ 0 <;>
      simp [getHintSessionPreferredRate, hl]
  · rintro ⟨rfl, hl⟩
    simp only [getHintSessionPreferredRate, if_true]
    rw [if_neg (by omega)]

/-- Witness for C7: an absent session backend yields UnsupportedOperation,
and a 16.6 ms reporting limit is returned as-is with success. -/
theorem getHintSessionPreferredRate_spec_witness :
    (getHintSessionPreferredRate false 0).1 = PowerStatus.unsupportedOperation
    ∧ getHintSessionPreferredRate true 16666666 = (PowerStatus.ok, 16666666) :=
  ⟨(getHintSessionPreferredRate_spec false 0).1.mpr (Or.inl rfl),
    (getHintSessionPreferredRate_spec true 16666666).2 ⟨rfl, by decide⟩⟩

/-- Filtering by the always-allowed predicate is idempotent. -/
lemma filter_allowed_idem (l : List String) :
    (l.filter isAlwaysAllowedHint).filter isAlwaysAllowedHint =
      l.filter isAlwaysAllowedHint := by
  rw [List.filter_filter]
  simp

/-- The filtered active set never contains "SUSTAINED_PERFORMANCE". -/
lemma contains_filter_allowed_sp (l : List String) :
    (l.filter isAlwaysAllowedHint).contains "SUSTAINED_PERFORMANCE" = false :=
  contains_filter_of_false l (by decide)

/-- The filtered active set never contains "LOW_POWER". -/
lemma contains_filter_allowed_lp (l : List String) :
    (l.filter isAlwaysAllowedHint).contains "LOW_POWER" = false :=
  contains_filter_of_false l (by decide)

/-- Prepending "SUSTAINED_PERFORMANCE" is undone by the allow-list filter. -/
lemma filter_allowed_cons_sp (l : List String) :
    ("SUSTAINED_PERFORMANCE" :: l).filter isAlwaysAllowedHint =
      l.filter isAlwaysAllowedHint := by
  rw [List.filter_cons_of_neg]
  decide

/-- Prepending "LOW_POWER" is undone by the allow-list filter. -/
lemma filter_allowed_cons_lp (l : List String) :
    ("LOW_POWER" :: l).filter isAlwaysAllowedHint = l.filter isAlwaysAllowedHint := by
  rw [List.filter_cons_of_neg]
  decide

/-- Activating an already-activated hint changes nothing. -/
lemma doHintSt_idem (s : PowerState) (n : String) :
    doHintSt (doHintSt s n) n = doHintSt s n := by
  by_cases h : n ∈ s.activeHints <;> simp [doHintSt, h]

/-- Activation leaves the sustained-performance flag unchanged. -/
lemma doHintSt_sus (s : PowerState) (n : String) :
    (doHintSt s n).mSustainedPerfModeOn = s.mSustainedPerfModeOn := rfl

/-- Activation leaves the battery-saver flag unchanged. -/
lemma doHintSt_bat (s : PowerState) (n : String) :
    (doHintSt s n).mBatterySaverOn = s.mBatterySaverOn := rfl

/-- C8: enabling any mode twice in succession leaves the same final flags
and active-hint set as enabling it once, for every override hook and every
starting state. -/
theorem setMode_enable_idempotent (dev : Mode → Bool → Bool) (m : Mode)
    (s : PowerState) :
    (setMode dev m true (setMode dev m true s).st).st =
      (setMode dev m true s).st := by
  obtain ⟨sus, bat, act⟩ := s
  cases hdev : dev m true
  case true => simp [setMode, hdev]
  case false =>
    cases m
    case SUSTAINED_PERFORMANCE =>
      simp [setMode, hdev, endAllHints_eq, doHintSt, List.mem_filter,
        (by decide : isAlwaysAllowedHint "SUSTAINED_PERFORMANCE" = false),
        filter_allowed_cons_sp, filter_allowed_idem]
    case LOW_POWER =>
      simp [setMode, hdev, endAllHints_eq, doHintSt, List.mem_filter,
        (by decide : isAlwaysAllowedHint "LOW_POWER" = false),
        filter_allowed_cons_lp, filter_allowed_idem]
    all_goals
      cases sus <;> cases bat <;>
        simp [setMode, hdev, doHintSt_idem, doHintSt_sus, doHintSt_bat,
          kAlwaysAllowedModes]

/-- C9: setBoost(INTERACTION, d) never issues a backend hint activation or
deactivation for any duration and any state: it only forwards the duration
to the interaction handler when not suppressed, leaving the state
unchanged.  In particular a negative duration deactivates nothing. -/
theorem setBoost_interaction_no_hint_calls (d : Int) (s : PowerState) :
    setBoost Boost.INTERACTION d s =
      ⟨s, if s.mSustainedPerfModeOn || s.mBatterySaverOn then []
          else [PowerCall.acquireInteraction d], .ok⟩
    ∧ (setBoost Boost.INTERACTION d s).calls.all (fun c => !c.isHintCall) = true := by
  by_cases h : (s.mSustainedPerfModeOn || s.mBatterySaverOn) = true <;>
    simp_all [setBoost, PowerCall.isHintCall]

/-- Membership in the allow-list-filtered set forces an allowed name. -/
lemma not_mem_filter_allowed (l : List String) {a : String}
    (ha : isAlwaysAllowedHint a = false) : a ∉ l.filter isAlwaysAllowedHint := by
  intro hmem
  have hpa := List.of_mem_filter hmem
  rw [ha] at hpa
  exact Bool.false_ne_true hpa

/-- C10: setMode(LOW_POWER, e) never modifies the sustained-performance
flag and setMode(SUSTAINED_PERFORMANCE, e) never modifies the battery-saver
flag; moreover, enabling LOW_POWER while the sustained flag is set (with the
override unhandled) leaves both flags true while the backend
"SUSTAINED_PERFORMANCE" hint has been swept away and "LOW_POWER" is
active. -/
theorem global_flags_independent (dev : Mode → Bool → Bool) (e : Bool)
    (s : PowerState) :
    ((setMode dev Mode.LOW_POWER e s).st.mSustainedPerfModeOn =
        s.mSustainedPerfModeOn
      ∧ (setMode dev Mode.SUSTAINED_PERFORMANCE e s).st.mBatterySaverOn =
        s.mBatterySaverOn)
    ∧ (dev Mode.LOW_POWER true = false → s.mSustainedPerfModeOn = true →
        (setMode dev Mode.LOW_POWER true s).st.mSustainedPerfModeOn = true
        ∧ (setMode dev Mode.LOW_POWER true s).st.mBatterySaverOn = true
        ∧ "SUSTAINED_PERFORMANCE" ∉ (setMode dev Mode.LOW_POWER true s).st.activeHints
        ∧ "LOW_POWER" ∈ (setMode dev Mode.LOW_POWER true s).st.activeHints) := by
  constructor
  · constructor
    · cases hdev : dev Mode.LOW_POWER e <;> cases e <;>
        simp [setMode, hdev, endAllHints_eq, doHintSt, endHintSt]
    · cases hdev : dev Mode.SUSTAINED_PERFORMANCE e <;> cases e <;>
        simp [setMode, hdev, endAllHints_eq, doHintSt, endHintSt]
  · intro hdev hsus
    refine ⟨?_, ?_, ?_, ?_⟩
    · simp [setMode, hdev, endAllHints_eq, doHintSt,
        contains_filter_allowed_lp, hsus]
    · simp [setMode, hdev, endAllHints_eq, doHintSt, contains_filter_allowed_lp]
    · simp [setMode, hdev, endAllHints_eq, doHintSt, List.mem_filter,
        (by decide : isAlwaysAllowedHint "SUSTAINED_PERFORMANCE" = false),
        (by decide : isAlwaysAllowedHint "LOW_POWER" = false)]
    · simp [setMode, hdev, endAllHints_eq, doHintSt, List.mem_filter,
        (by decide : isAlwaysAllowedHint "LOW_POWER" = false)]

/-- Witness for C10: enabling LOW_POWER from a state where only the
sustained hint is active leaves both flags true, sweeps out the sustained
hint and activates "LOW_POWER". -/
theorem global_flags_independent_witness :
    (setMode devNone Mode.LOW_POWER true
        ⟨true, false, ["SUSTAINED_PERFORMANCE"]⟩).st.mSustainedPerfModeOn = true
    ∧ (setMode devNone Mode.LOW_POWER true
        ⟨true, false, ["SUSTAINED_PERFORMANCE"]⟩).st.mBatterySaverOn = true
    ∧ "SUSTAINED_PERFORMANCE" ∉ (setMode devNone Mode.LOW_POWER true
        ⟨true, false, ["SUSTAINED_PERFORMANCE"]⟩).st.activeHints
    ∧ "LOW_POWER" ∈ (setMode devNone Mode.LOW_POWER true
        ⟨true, false, ["SUSTAINED_PERFORMANCE"]⟩).st.activeHints :=
  (global_flags_independent devNone true
    ⟨true, false, ["SUSTAINED_PERFORMANCE"]⟩).2 rfl rfl

end PowerHal
